import Mathlib

/-!
Verification development for the notibag notification server
(backend/main.go: in-memory notification store, notification service,
WebSocket connection registry / broadcaster, and protocol handler).

The Go code is embedded shallowly:
* `time.Time` becomes `GoTime`, nanoseconds since the Unix epoch.
* The in-memory repository's `notifications` slice becomes a
  `List Notification`; in-place mutation becomes explicit state passing.
* Go `error` results become `Except String` values carrying the exact
  error strings from the source (`errors.New` / `fmt.Errorf`).
  In the spec's taxonomy, "title and message are required" and
  "notification ID is required" are the InvalidArgument errors and
  "notification not found" is the NotFound error.
* `*websocket.Conn` handles are opaque identities, modelled as `Nat`;
  the success or failure of a `WriteJSON` call on a given connection is
  an environment parameter `writeOk : Nat → Bool`.
-/

set_option autoImplicit false

namespace Notibag

/-- Go `time.Time`: an instant, as nanoseconds since the Unix epoch. -/
structure GoTime where
  unixNanos : Int
  deriving DecidableEq, Repr

/-- Go `t.Add(d)`: shift an instant by a duration in nanoseconds. -/
def GoTime.add (t : GoTime) (d : Int) : GoTime :=
  ⟨t.unixNanos + d⟩

/-- Go `time.Minute` in nanoseconds. -/
def minuteNanos : Int := 60 * 1000000000

/-- Zero-pad the decimal rendering of a natural number to width `w`. -/
def padNat (w : Nat) (n : Nat) : String :=
  let s := toString n
  String.mk (List.replicate (w - s.length) '0') ++ s

/-- Zero-pad an integer (nonnegative in every use here) to width `w`. -/
def padInt (w : Nat) (i : Int) : String :=
  padNat w i.toNat

/--
Civil calendar date (year, month, day) from a count of days since
1970-01-01, following the standard proleptic-Gregorian conversion used
by Go's `time` package (absolute date computation).
-/
def civilFromDays (z0 : Int) : Int × Int × Int :=
  let z := z0 + 719468
  let era := Int.fdiv z 146097
  let doe := z - era * 146097
  let yoe := Int.fdiv (doe - Int.fdiv doe 1460 + Int.fdiv doe 36524 - Int.fdiv doe 146096) 365
  let y := yoe + era * 400
  let doy := doe - (365 * yoe + Int.fdiv yoe 4 - Int.fdiv yoe 100)
  let mp := Int.fdiv (5 * doy + 2) 153
  let d := doy - Int.fdiv (153 * mp + 2) 5 + 1
  let m := mp + (if mp < 10 then 3 else -9)
  (if m ≤ 2 then y + 1 else y, m, d)

/--
Go `t.Format("20060102150405")`: every chunk of that layout is a
recognized reference-time component (2006 year, 01 month, 02 day,
15 hour, 04 minute, 05 second), so the output is the zero-padded
calendar rendering of the instant's whole-second part.  Rendered at a
fixed zone offset; only the whole-second part of `t` matters.
-/
def formatDateTimeLayout (t : GoTime) : String :=
  let secs := Int.fdiv t.unixNanos 1000000000
  let days := Int.fdiv secs 86400
  let sod := (secs - days * 86400).toNat
  let c := civilFromDays days
  padInt 4 c.1 ++ padInt 2 c.2.1 ++ padInt 2 c.2.2 ++
    padNat 2 (sod / 3600) ++ padNat 2 (sod / 60 % 60) ++ padNat 2 (sod % 60)

/--
Go `generateID`:
`time.Now().Format("20060102150405") + "-" + time.Now().Format("000")`.
In a Go layout a fractional-second chunk must start with a dot
(`".000"`); the dotless layout `"000"` contains no reference-time
component at all, so `Format("000")` returns the literal string
`"000"` for every instant.  The generated identifier therefore depends
only on the whole second of the clock and always ends in `"-000"`.
The source reads the clock twice; since the second read feeds only the
constant-result `Format("000")`, a single instant parameter suffices.
-/
def generateID (t : GoTime) : String :=
  formatDateTimeLayout t ++ "-" ++ "000"

/-- The `Notification` domain model (field `Type`-free; JSON tags elided). -/
structure Notification where
  ID : String
  Title : String
  Message : String
  Timestamp : GoTime
  Read : Bool
  deriving DecidableEq, Repr

/--
Go `WSMessage`.  The Go field names are `Type`, `Notification`,
`Notifications`, `NotificationID`; the first three are renamed here
(`Type` is a Lean keyword, the others shadow the model type).  The two
`omitempty` pointer/slice fields become `Option`s.
-/
structure WSMessage where
  msgType : String
  notification : Option Notification
  notifications : Option (List Notification)
  notificationID : String
  deriving DecidableEq, Repr

/--
Go `NewInMemoryNotificationRepository`: the freshly constructed store
is pre-seeded with two unread notifications, stamped five and two
minutes before the construction instant `now`.
-/
def NewInMemoryNotificationRepository (now : GoTime) : List Notification :=
  [ { ID := "1"
      Title := "システム起動"
      Message := "Notibagが正常に起動しました"
      Timestamp := now.add (-5 * minuteNanos)
      Read := false },
    { ID := "2"
      Title := "重要な更新"
      Message := "新しいバージョンが利用可能です。アップデートを確認してください。"
      Timestamp := now.add (-2 * minuteNanos)
      Read := false } ]

/--
Go `InMemoryNotificationRepository.GetUnread`: loop appending every
notification with `Read == false`, preserving order — i.e. a filter.
-/
def GetUnread (l : List Notification) : List Notification :=
  l.filter (fun n => !n.Read)

/-- Go `InMemoryNotificationRepository.GetAll`: a copy of the slice. -/
def GetAll (l : List Notification) : List Notification :=
  l

/--
Go `InMemoryNotificationRepository.Create`: prepends and returns `nil`
(always succeeds), so the model returns the new state directly.
-/
def Create (n : Notification) (l : List Notification) : List Notification :=
  n :: l

/--
Go `InMemoryNotificationRepository.MarkAsRead`: scans front to back,
sets `Read = true` on the first notification whose `ID` matches and
returns `nil`; returns `errors.New("notification not found")` when the
scan falls off the end.  `some` is the success case carrying the
mutated state.
-/
def MarkAsRead : List Notification → String → Option (List Notification)
  | [], _ => none
  | n :: rest, id =>
    if n.ID = id then some ({ n with Read := true } :: rest)
    else (MarkAsRead rest id).map (n :: ·)

/-- Go `InMemoryNotificationRepository.Clear`: empties the slice. -/
def Clear (_l : List Notification) : List Notification :=
  []

/--
Go `NotificationServiceImpl.CreateNotification`: rejects when either
field equals the empty string (no trimming in the source), otherwise
builds the record with a generated identifier, the current instant `t`
and `Read = false`, persists it via `Create` (which cannot fail) and
returns it.  The pair is (returned value or error, store state after
the call).
-/
def CreateNotification (title message : String) (t : GoTime) (l : List Notification) :
    Except String Notification × List Notification :=
  if title = "" ∨ message = "" then
    (Except.error "title and message are required", l)
  else
    let n : Notification :=
      { ID := generateID t, Title := title, Message := message, Timestamp := t, Read := false }
    (Except.ok n, Create n l)

/--
Go `NotificationServiceImpl.MarkNotificationAsRead`: rejects the empty
identifier before touching the store, otherwise delegates to the
repository's `MarkAsRead`, passing its NotFound error through
unchanged.  The pair is (result, store state after the call).
-/
def MarkNotificationAsRead (id : String) (l : List Notification) :
    Except String Unit × List Notification :=
  if id = "" then
    (Except.error "notification ID is required", l)
  else
    match MarkAsRead l id with
    | some l' => (Except.ok (), l')
    | none => (Except.error "notification not found", l)

/-- Go `NotificationServiceImpl.GetUnreadNotifications`: delegates. -/
def GetUnreadNotifications (l : List Notification) : List Notification :=
  GetUnread l

/-- Go `NotificationServiceImpl.ClearAllNotifications`: delegates to `Clear`, which returns `nil`. -/
def ClearAllNotifications (l : List Notification) : Except String Unit × List Notification :=
  (Except.ok (), Clear l)

/--
The single outbound frame built by `WSManagerImpl.BroadcastNotification`
before its send loop: `WSMessage{Type: "notification", Notification: &n}`.
-/
def notificationFrame (n : Notification) : WSMessage :=
  { msgType := "notification"
    notification := some n
    notifications := none
    notificationID := "" }

/-- Outcome of one `BroadcastNotification` call. -/
structure BroadcastResult where
  /-- every connection the loop called `WriteJSON` on -/
  attempted : List Nat
  /-- the (connection, frame) deliveries whose write succeeded -/
  sent : List (Nat × WSMessage)
  /-- the client registry after the loop: failed writers deleted -/
  clientsAfter : List Nat
  deriving DecidableEq, Repr

/--
Go `WSManagerImpl.BroadcastNotification`: iterates over the registered
clients, writing `notificationFrame n` to each; on a write error the
connection is closed and deleted from the registry, and the loop
continues.  The Go function has no error return value at all, so the
model's result type has no error component.  `writeOk c` says whether
the `WriteJSON` call on connection `c` succeeds.
-/
def BroadcastNotification (n : Notification) (clients : List Nat) (writeOk : Nat → Bool) :
    BroadcastResult :=
  match clients with
  | [] => ⟨[], [], []⟩
  | c :: rest =>
    let r := BroadcastNotification n rest writeOk
    if writeOk c then ⟨c :: r.attempted, (c, notificationFrame n) :: r.sent, c :: r.clientsAfter⟩
    else ⟨c :: r.attempted, r.sent, r.clientsAfter⟩

/--
Go `WSManagerImpl.HandleMessage`, dispatching on `msg.Type`.  The
result is (frames written back on the originating connection, the Go
error return — which `HandleWebSocket` only logs — and the store state
after the call).  `get_notifications` writes one `notifications_list`
frame; `mark_read`, `clear_all` and unknown types write nothing.
-/
def HandleMessage (msg : WSMessage) (l : List Notification) :
    List WSMessage × Except String Unit × List Notification :=
  if msg.msgType = "get_notifications" then
    ([{ msgType := "notifications_list"
        notification := none
        notifications := some (GetUnreadNotifications l)
        notificationID := "" }],
     Except.ok (), l)
  else if msg.msgType = "mark_read" then
    if msg.notificationID ≠ "" then
      let r := MarkNotificationAsRead msg.notificationID l
      ([], r.1, r.2)
    else
      ([], Except.error "notification ID is required", l)
  else if msg.msgType = "clear_all" then
    ([], (ClearAllNotifications l).1, (ClearAllNotifications l).2)
  else
    ([], Except.error ("unknown message type: " ++ msg.msgType), l)

/--
"Further MarkRead calls" through the Service: fold the service-level
mark-read over a list of identifiers, each call acting on the state the
previous one left (a failed call leaves the state unchanged, exactly as
the Go code mutates nothing on its error paths).
-/
def applyMarks (l : List Notification) (ids : List String) : List Notification :=
  ids.foldl (fun s i => (MarkNotificationAsRead i s).2) l

/--
C1.  The claim asserts the generated identifier carries sub-second
precision, so that Create calls at different sub-second instants get
distinct identifiers.  The code disagrees: the layout `"000"` passed to
`Format` lacks the leading dot Go requires for fractional seconds, so
it is emitted literally and the identifier depends only on the whole
second.  Witnessed here at two instants 0.1s and 0.9s into the Unix
epoch second 0 — different sub-second instants, identical identifiers
(both `"19700101000000-000"`).
-/
theorem generateID_subsecond_collision :
    generateID ⟨100000000⟩ = generateID ⟨900000000⟩ ∧
      (⟨100000000⟩ : GoTime) ≠ ⟨900000000⟩ ∧
      generateID ⟨100000000⟩ = "19700101000000-000" := by
  refine ⟨by decide, by decide, by decide⟩

/--
C9.  A freshly constructed store is not empty: it holds exactly the two
pre-seeded unread notifications with identifiers "1" and "2" and titles
"システム起動" and "重要な更新", so the first unread listing after
startup has length two (indeed it is the whole seeded list).
-/
theorem fresh_repository_two_unread (now : GoTime) :
    GetUnread (NewInMemoryNotificationRepository now) = NewInMemoryNotificationRepository now ∧
      (NewInMemoryNotificationRepository now).map Notification.ID = ["1", "2"] ∧
      (NewInMemoryNotificationRepository now).map Notification.Title = ["システム起動", "重要な更新"] ∧
      (NewInMemoryNotificationRepository now).map Notification.Read = [false, false] ∧
      (GetUnread (NewInMemoryNotificationRepository now)).length = 2 := by
  refine ⟨rfl, rfl, rfl, rfl, rfl⟩

/--
Repository scan failure characterised: `MarkAsRead` returns its
NotFound error exactly when no stored record carries the identifier.
-/
theorem MarkAsRead_eq_none_iff (l : List Notification) (id : String) :
    MarkAsRead l id = none ↔ ∀ n ∈ l, n.ID ≠ id := by
  induction l with
  | nil => simp [MarkAsRead]
  | cons n rest ih =>
    by_cases h : n.ID = id
    · simp [MarkAsRead, h]
    · simp [MarkAsRead, h, Option.map_eq_none', ih]

/--
Modelled from the spec's words for the C2 comparison only: a string is
"empty after trimming" exactly when every one of its characters is
whitespace (trimming strips leading and trailing whitespace, so such a
string trims to the empty string).  The source applies no such test.
-/
def emptyAfterTrimming (s : String) : Bool :=
  s.toList.all Char.isWhitespace

/--
C2 counterexample.  The claim says Create fails InvalidArgument iff a
field is empty after trimming whitespace, so the whitespace-only title
" " should be rejected with the store unchanged.  The code performs no
trimming: `Create(" ", "x")` succeeds and prepends a record, even
though " " is empty after trimming.
-/
theorem createNotification_accepts_whitespace_title :
    emptyAfterTrimming " " = true ∧
      CreateNotification " " "x" ⟨0⟩ [] =
        (Except.ok
          { ID := "19700101000000-000", Title := " ", Message := "x",
            Timestamp := ⟨0⟩, Read := false },
         [{ ID := "19700101000000-000", Title := " ", Message := "x",
            Timestamp := ⟨0⟩, Read := false }]) := by
  refine ⟨by decide, by rfl⟩

/--
C2 amended.  `CreateNotification` fails with its InvalidArgument error
and leaves the store untouched exactly when the title or the message is
the empty string — no whitespace trimming is applied, so a
whitespace-only field is accepted.
-/
theorem createNotification_invalid_iff_empty (title message : String) (t : GoTime)
    (l : List Notification) :
    CreateNotification title message t l = (Except.error "title and message are required", l) ↔
      title = "" ∨ message = "" := by
  unfold CreateNotification
  split <;> simp_all

/--
C2 witness: `Create("", "x")` fails InvalidArgument with the store
unchanged.
-/
theorem createNotification_invalid_iff_empty_witness :
    CreateNotification "" "x" ⟨0⟩ [] = (Except.error "title and message are required", []) :=
  (createNotification_invalid_iff_empty "" "x" ⟨0⟩ []).mpr (Or.inl rfl)

/--
C5.  For every non-empty title and message, Create succeeds with a
record carrying `Read = false`, and that record becomes the head of
both the full and the unread listing, the previously stored records
following unchanged in their prior order.
-/
theorem createNotification_success_prepends (title message : String) (t : GoTime)
    (l : List Notification) (ht : title ≠ "") (hm : message ≠ "") :
    ∃ n : Notification,
      CreateNotification title message t l = (Except.ok n, Create n l) ∧
        n.Read = false ∧ n.Title = title ∧ n.Message = message ∧ n.Timestamp = t ∧
        GetAll (Create n l) = n :: GetAll l ∧
        GetUnread (Create n l) = n :: GetUnread l := by
  have hcond : ¬(title = "" ∨ message = "") := by
    rintro (h | h)
    · exact ht h
    · exact hm h
  refine ⟨{ ID := generateID t, Title := title, Message := message, Timestamp := t, Read := false },
    ?_, rfl, rfl, rfl, rfl, rfl, rfl⟩
  unfold CreateNotification
  rw [if_neg hcond]

/-- C5 witness at a concrete valid input on the empty store. -/
theorem createNotification_success_prepends_witness :
    ∃ n : Notification,
      CreateNotification "x" "y" ⟨0⟩ [] = (Except.ok n, Create n []) ∧
        n.Read = false ∧ n.Title = "x" ∧ n.Message = "y" ∧ n.Timestamp = ⟨0⟩ ∧
        GetAll (Create n []) = n :: GetAll [] ∧
        GetUnread (Create n []) = n :: GetUnread [] :=
  createNotification_success_prepends "x" "y" ⟨0⟩ [] (by decide) (by decide)

/--
C6.  Service-level mark-read: the empty identifier fails with the
InvalidArgument error and an unchanged store; a non-empty identifier
matching no stored record fails with the NotFound error and an
unchanged store; an identifier some stored record carries succeeds.
-/
theorem markNotificationAsRead_error_cases (id : String) (l : List Notification) :
    (id = "" → MarkNotificationAsRead id l = (Except.error "notification ID is required", l)) ∧
      (id ≠ "" → (∀ n ∈ l, n.ID ≠ id) →
        MarkNotificationAsRead id l = (Except.error "notification not found", l)) ∧
      (id ≠ "" → (∃ n ∈ l, n.ID = id) →
        ∃ l', MarkNotificationAsRead id l = (Except.ok (), l')) := by
  refine ⟨fun h => by simp [MarkNotificationAsRead, h], fun h hnone => ?_, fun h hex => ?_⟩
  · have hm : MarkAsRead l id = none := (MarkAsRead_eq_none_iff l id).mpr hnone
    simp [MarkNotificationAsRead, h, hm]
  · cases hmark : MarkAsRead l id with
    | some l' => exact ⟨l', by simp [MarkNotificationAsRead, h, hmark]⟩
    | none =>
      obtain ⟨n, hn, hid⟩ := hex
      exact absurd hid ((MarkAsRead_eq_none_iff l id).mp hmark n hn)

/--
C6 witness: `MarkRead("unknown")` on the empty store fails NotFound and
leaves the store unchanged.
-/
theorem markNotificationAsRead_error_cases_witness :
    MarkNotificationAsRead "unknown" [] = (Except.error "notification not found", []) :=
  (markNotificationAsRead_error_cases "unknown" []).2.1 (by decide) (by simp)

/--
The broadcast loop characterised: every registered connection is
attempted, the successful writes are exactly the connections whose
`WriteJSON` succeeds (each receiving the one notification frame), and
the registry afterwards is the original set with the failed writers
deleted.
-/
theorem broadcast_spec (n : Notification) (clients : List Nat) (writeOk : Nat → Bool) :
    (BroadcastNotification n clients writeOk).attempted = clients ∧
      (BroadcastNotification n clients writeOk).sent =
        (clients.filter writeOk).map (fun c => (c, notificationFrame n)) ∧
      (BroadcastNotification n clients writeOk).clientsAfter = clients.filter writeOk := by
  induction clients with
  | nil => exact ⟨rfl, rfl, rfl⟩
  | cons c rest ih =>
    by_cases h : writeOk c <;>
      simp [BroadcastNotification, h, List.filter_cons, ih.1, ih.2.1, ih.2.2]

/--
C3.  Broadcast attempts delivery to each registered connection; a
connection whose write fails is removed from the registry, every
connection whose write succeeds still receives the frame, and — the Go
function having no error return value at all (`BroadcastResult` has no
error component) — no accumulation of per-connection failures reaches
the caller.
-/
theorem broadcast_isolates_failures (n : Notification) (clients : List Nat)
    (writeOk : Nat → Bool) :
    (BroadcastNotification n clients writeOk).attempted = clients ∧
      (BroadcastNotification n clients writeOk).sent =
        (clients.filter writeOk).map (fun c => (c, notificationFrame n)) ∧
      (BroadcastNotification n clients writeOk).clientsAfter = clients.filter writeOk ∧
      (∀ c ∈ clients, writeOk c = true →
        (c, notificationFrame n) ∈ (BroadcastNotification n clients writeOk).sent) ∧
      (∀ c, writeOk c = false → c ∉ (BroadcastNotification n clients writeOk).clientsAfter) := by
  obtain ⟨ha, hs, hc⟩ := broadcast_spec n clients writeOk
  refine ⟨ha, hs, hc, ?_, ?_⟩
  · intro c hcl hw
    rw [hs]
    exact List.mem_map.mpr ⟨c, List.mem_filter.mpr ⟨hcl, hw⟩, rfl⟩
  · intro c hw hmem
    rw [hc] at hmem
    have := (List.mem_filter.mp hmem).2
    rw [hw] at this
    cases this

/--
C3 witness: connections 1 and 2 registered, connection 1's write
fails — connection 2 still receives the frame and connection 1 is
absent from the registry afterwards.
-/
theorem broadcast_isolates_failures_witness :
    (2, notificationFrame { ID := "i", Title := "t", Message := "m", Timestamp := ⟨0⟩, Read := false }) ∈
        (BroadcastNotification { ID := "i", Title := "t", Message := "m", Timestamp := ⟨0⟩, Read := false }
          [1, 2] (fun c => c == 2)).sent ∧
      1 ∉ (BroadcastNotification { ID := "i", Title := "t", Message := "m", Timestamp := ⟨0⟩, Read := false }
          [1, 2] (fun c => c == 2)).clientsAfter :=
  ⟨(broadcast_isolates_failures _ [1, 2] (fun c => c == 2)).2.2.2.1 2 (by decide) (by decide),
   (broadcast_isolates_failures _ [1, 2] (fun c => c == 2)).2.2.2.2 1 (by decide)⟩

/--
C8.  A `get_notifications` frame produces exactly one
`notifications_list` reply carrying the current unread listing on the
same connection; `mark_read`, `clear_all` and every unknown frame type
produce no reply frame and no error frame — their Go error returns are
surfaced only to the read loop, which logs them.
-/
theorem handleMessage_reply_frames (msg : WSMessage) (l : List Notification) :
    (msg.msgType = "get_notifications" →
      (HandleMessage msg l).1 =
        [{ msgType := "notifications_list", notification := none,
           notifications := some (GetUnreadNotifications l), notificationID := "" }]) ∧
      (msg.msgType ≠ "get_notifications" → (HandleMessage msg l).1 = []) := by
  constructor
  · intro h
    simp [HandleMessage, h]
  · intro h
    by_cases h2 : msg.msgType = "mark_read"
    · by_cases h3 : msg.notificationID = "" <;> simp [HandleMessage, h, h2, h3]
    · by_cases h4 : msg.msgType = "clear_all" <;> simp [HandleMessage, h, h2, h4]

/--
C8 witness: a `get_notifications` frame on the empty store yields the
single `notifications_list` reply, and a `mark_read` frame yields no
reply frame.
-/
theorem handleMessage_reply_frames_witness :
    (HandleMessage { msgType := "get_notifications", notification := none,
                     notifications := none, notificationID := "" } []).1 =
      [{ msgType := "notifications_list", notification := none,
         notifications := some (GetUnreadNotifications []), notificationID := "" }] ∧
      (HandleMessage { msgType := "mark_read", notification := none,
                       notifications := none, notificationID := "zzz" } []).1 = [] :=
  ⟨(handleMessage_reply_frames _ []).1 rfl,
   (handleMessage_reply_frames _ []).2 (by decide)⟩

/--
C10.  When several stored records share an identifier, `MarkAsRead`
marks only the first match in the sequence: with `l1` the prefix of
non-matching records, `r` the first match and `l2` everything after it
(including any further records carrying the same identifier), the scan
succeeds and rewrites exactly `r`, leaving `l2` verbatim.
-/
theorem markAsRead_first_match_only (l1 : List Notification) (r : Notification)
    (l2 : List Notification) (id : String)
    (h1 : ∀ x ∈ l1, x.ID ≠ id) (hr : r.ID = id) :
    MarkAsRead (l1 ++ r :: l2) id = some (l1 ++ { r with Read := true } :: l2) := by
  induction l1 with
  | nil => simp [MarkAsRead, hr]
  | cons x rest ih =>
    have hx : x.ID ≠ id := h1 x (by simp)
    have ih' := ih fun y hy => h1 y (by simp [hy])
    simp [MarkAsRead, hx, ih']

/--
C10 witness: two records share identifier "a"; marking "a" flips only
the first one and the later duplicate stays unread and untouched.
-/
theorem markAsRead_first_match_only_witness :
    MarkAsRead
        [{ ID := "a", Title := "t1", Message := "m1", Timestamp := ⟨0⟩, Read := false },
         { ID := "a", Title := "t2", Message := "m2", Timestamp := ⟨0⟩, Read := false }] "a" =
      some
        [{ ID := "a", Title := "t1", Message := "m1", Timestamp := ⟨0⟩, Read := true },
         { ID := "a", Title := "t2", Message := "m2", Timestamp := ⟨0⟩, Read := false }] :=
  markAsRead_first_match_only []
    { ID := "a", Title := "t1", Message := "m1", Timestamp := ⟨0⟩, Read := false }
    [{ ID := "a", Title := "t2", Message := "m2", Timestamp := ⟨0⟩, Read := false }]
    "a" (by simp) rfl

/-- A successful `MarkAsRead` preserves the length of the sequence. -/
theorem MarkAsRead_length :
    ∀ {l l' : List Notification} {id : String},
      MarkAsRead l id = some l' → l'.length = l.length := by
  intro l
  induction l with
  | nil => intro l' id h; simp [MarkAsRead] at h
  | cons n rest ih =>
    intro l' id h
    simp only [MarkAsRead] at h
    by_cases hid : n.ID = id
    · rw [if_pos hid] at h
      injection h with h
      subst h
      simp
    · rw [if_neg hid, Option.map_eq_some'] at h
      obtain ⟨l'', hmk, rfl⟩ := h
      simp [ih hmk]

/--
A successful `MarkAsRead` never reverts a read flag: positionally, a
record already read stays read.
-/
theorem MarkAsRead_get?_mono :
    ∀ {l l' : List Notification} {id : String}, MarkAsRead l id = some l' →
      ∀ (i : Nat) (x x' : Notification), l.get? i = some x → l'.get? i = some x' →
        x.Read = true → x'.Read = true := by
  intro l
  induction l with
  | nil => intro l' id h; simp [MarkAsRead] at h
  | cons n rest ih =>
    intro l' id h i x x' hx hx' hr
    simp only [MarkAsRead] at h
    by_cases hid : n.ID = id
    · rw [if_pos hid] at h
      injection h with h
      subst h
      cases i with
      | zero =>
        simp only [List.get?_cons_zero, Option.some.injEq] at hx hx'
        subst hx
        subst hx'
        rfl
      | succ j =>
        simp only [List.get?_cons_succ] at hx hx'
        rw [hx] at hx'
        injection hx' with hx'
        subst hx'
        exact hr
    · rw [if_neg hid, Option.map_eq_some'] at h
      obtain ⟨l'', hmk, rfl⟩ := h
      cases i with
      | zero =>
        simp only [List.get?_cons_zero, Option.some.injEq] at hx hx'
        subst hx
        subst hx'
        exact hr
      | succ j =>
        simp only [List.get?_cons_succ] at hx hx'
        exact ih hmk j x x' hx hx' hr

/--
A successful `MarkAsRead` leaves some position holding a read record
with the requested identifier — the record it just marked.
-/
theorem MarkAsRead_marks_member :
    ∀ {l l' : List Notification} {id : String}, MarkAsRead l id = some l' →
      ∃ j x, l'.get? j = some x ∧ x.Read = true ∧ x.ID = id := by
  intro l
  induction l with
  | nil => intro l' id h; simp [MarkAsRead] at h
  | cons n rest ih =>
    intro l' id h
    simp only [MarkAsRead] at h
    by_cases hid : n.ID = id
    · rw [if_pos hid] at h
      injection h with h
      subst h
      exact ⟨0, { n with Read := true }, rfl, rfl, hid⟩
    · rw [if_neg hid, Option.map_eq_some'] at h
      obtain ⟨l'', hmk, rfl⟩ := h
      obtain ⟨j, x, hget, hread, hxid⟩ := ih hmk
      exact ⟨j + 1, x, hget, hread, hxid⟩

/--
The service-level mark-read either leaves the store untouched (empty
identifier, or NotFound) or its post-state is a successful repository
`MarkAsRead` result.
-/
theorem MarkNotificationAsRead_state_cases (a : String) (s : List Notification) :
    (MarkNotificationAsRead a s).2 = s ∨
      MarkAsRead s a = some ((MarkNotificationAsRead a s).2) := by
  unfold MarkNotificationAsRead
  by_cases ha : a = ""
  · left
    simp [ha]
  · cases hmk : MarkAsRead s a with
    | some l' =>
      right
      simp [ha, hmk]
    | none =>
      left
      simp [ha, hmk]

/-- Unfolding one service mark-read step of `applyMarks`. -/
theorem applyMarks_cons (a : String) (as : List String) (l : List Notification) :
    applyMarks l (a :: as) = applyMarks ((MarkNotificationAsRead a l).2) as :=
  rfl

/-- Any sequence of service mark-read calls preserves the store's length. -/
theorem applyMarks_length :
    ∀ (ids : List String) (l : List Notification), (applyMarks l ids).length = l.length := by
  intro ids
  induction ids with
  | nil => intro l; rfl
  | cons a as ih =>
    intro l
    rw [applyMarks_cons, ih]
    rcases MarkNotificationAsRead_state_cases a l with hc | hc
    · rw [hc]
    · exact MarkAsRead_length hc

/--
Any sequence of service mark-read calls never reverts a read flag:
positionally, a record already read stays read.
-/
theorem applyMarks_get?_mono :
    ∀ (ids : List String) (l : List Notification) (i : Nat) (x x' : Notification),
      l.get? i = some x → (applyMarks l ids).get? i = some x' →
      x.Read = true → x'.Read = true := by
  intro ids
  induction ids with
  | nil =>
    intro l i x x' hx hx' hr
    have hx'' : l.get? i = some x' := hx'
    rw [hx] at hx''
    injection hx'' with hx''
    subst hx''
    exact hr
  | cons a as ih =>
    intro l i x x' hx hx' hr
    rw [applyMarks_cons] at hx'
    obtain ⟨hilen, -⟩ := List.get?_eq_some.mp hx
    have hmidlen : ((MarkNotificationAsRead a l).2).length = l.length := by
      rcases MarkNotificationAsRead_state_cases a l with hc | hc
      · rw [hc]
      · exact MarkAsRead_length hc
    obtain ⟨y, hmy⟩ : ∃ y, ((MarkNotificationAsRead a l).2).get? i = some y := by
      cases hmy : ((MarkNotificationAsRead a l).2).get? i with
      | some y => exact ⟨y, rfl⟩
      | none =>
        have := List.get?_eq_none.mp hmy
        omega
    have hyr : y.Read = true := by
      rcases MarkNotificationAsRead_state_cases a l with hc | hc
      · rw [hc, hx] at hmy
        injection hmy with hmy
        subst hmy
        exact hr
      · exact MarkAsRead_get?_mono hc i x y hx hmy hr
    exact ih ((MarkNotificationAsRead a l).2) i y x' hmy hx' hyr

/-- The unread-only listing contains only records with `Read = false`. -/
theorem GetUnread_read_false {n : Notification} {l : List Notification}
    (h : n ∈ GetUnread l) : n.Read = false := by
  have := (List.mem_filter.mp h).2
  simpa using this

/--
C4.  A successful repository `MarkAsRead` preserves the sequence's
length and never reverts a read flag; it leaves the marked record
(read, carrying the requested identifier) at some position `j`, and
after any further sequence of service-level MarkRead calls — on that
identifier or any other — the record at position `j` is still read and
therefore absent from the unread-only listing.
-/
theorem markRead_monotone_excludes_unread (l : List Notification) (id : String)
    (l' : List Notification) (h : MarkAsRead l id = some l') (ids : List String) :
    l'.length = l.length ∧
      (∀ (i : Nat) (x x' : Notification), l.get? i = some x → l'.get? i = some x' →
        x.Read = true → x'.Read = true) ∧
      ∃ j x, l'.get? j = some x ∧ x.Read = true ∧ x.ID = id ∧
        ∃ x', (applyMarks l' ids).get? j = some x' ∧ x'.Read = true ∧
          x' ∉ GetUnread (applyMarks l' ids) := by
  obtain ⟨j, x, hget, hread, hxid⟩ := MarkAsRead_marks_member h
  obtain ⟨hjlen, -⟩ := List.get?_eq_some.mp hget
  obtain ⟨x', hget'⟩ : ∃ x', (applyMarks l' ids).get? j = some x' := by
    cases hg : (applyMarks l' ids).get? j with
    | some x' => exact ⟨x', rfl⟩
    | none =>
      have h1 := List.get?_eq_none.mp hg
      have h2 := applyMarks_length ids l'
      omega
  have hread' : x'.Read = true := applyMarks_get?_mono ids l' j x x' hget hget' hread
  refine ⟨MarkAsRead_length h, fun i a a' => MarkAsRead_get?_mono h i a a',
    j, x, hget, hread, hxid, x', hget', hread', fun hmem => ?_⟩
  have := GetUnread_read_false hmem
  rw [hread'] at this
  cases this

/--
C4 witness: mark the single stored record, then call mark-read twice
more ("1" again and an unknown "2") — the record stays read and out of
the unread listing.
-/
theorem markRead_monotone_excludes_unread_witness :
    ([{ ID := "1", Title := "t", Message := "m", Timestamp := ⟨0⟩, Read := true }] :
        List Notification).length =
      ([{ ID := "1", Title := "t", Message := "m", Timestamp := ⟨0⟩, Read := false }] :
        List Notification).length ∧
      (∀ (i : Nat) (x x' : Notification),
        ([{ ID := "1", Title := "t", Message := "m", Timestamp := ⟨0⟩, Read := false }] :
          List Notification).get? i = some x →
        ([{ ID := "1", Title := "t", Message := "m", Timestamp := ⟨0⟩, Read := true }] :
          List Notification).get? i = some x' →
        x.Read = true → x'.Read = true) ∧
      ∃ j x,
        ([{ ID := "1", Title := "t", Message := "m", Timestamp := ⟨0⟩, Read := true }] :
          List Notification).get? j = some x ∧ x.Read = true ∧ x.ID = "1" ∧
        ∃ x',
          (applyMarks [{ ID := "1", Title := "t", Message := "m", Timestamp := ⟨0⟩, Read := true }]
            ["1", "2"]).get? j = some x' ∧ x'.Read = true ∧
          x' ∉ GetUnread (applyMarks
            [{ ID := "1", Title := "t", Message := "m", Timestamp := ⟨0⟩, Read := true }]
            ["1", "2"]) :=
  markRead_monotone_excludes_unread
    [{ ID := "1", Title := "t", Message := "m", Timestamp := ⟨0⟩, Read := false }] "1"
    [{ ID := "1", Title := "t", Message := "m", Timestamp := ⟨0⟩, Read := true }]
    (by decide) ["1", "2"]

end Notibag
